import Mathlib

/-!
Verification of the hierarchical summary cache/invalidation engine of
striim-cs-backend, shallowly embedded from
`app/services/data/summary_service.py`,
`app/services/data/hierarchical_summary_service.py` and
`app/api/routes/hierarchical_summaries.py`.

The persistent `summaries` table is modelled as a list of rows, the
`summary_relationships` table as a list of (parent_summary_id,
child_summary_id) pairs, and timestamps as integer seconds (a Python
`timedelta(hours=h)` is `h * 3600`).  External collaborators (the SHA-256
digest, Python's process-salted builtin `hash`, the LLM, and the per-type raw
data fetchers, which live behind `db`/`llm_service`) are taken as function
parameters.
-/

namespace StriimCS

/-- Decidable equality of `Except` results, used to evaluate the embedded
operations on concrete inputs. -/
instance decEqExcept {ε α : Type} [DecidableEq ε] [DecidableEq α] :
    DecidableEq (Except ε α) := fun a b =>
  match a, b with
  | .error e, .error f =>
    if h : e = f then isTrue (congrArg Except.error h)
    else isFalse (fun hh => h (Except.error.inj hh))
  | .ok x, .ok y =>
    if h : x = y then isTrue (congrArg Except.ok h)
    else isFalse (fun hh => h (Except.ok.inj hh))
  | .error _, .ok _ => isFalse (fun hh => Except.noConfusion hh)
  | .ok _, .error _ => isFalse (fun hh => Except.noConfusion hh)

/-- Timestamps in integer seconds; `timedelta(hours=h)` becomes `h * 3600`. -/
abbrev Time := Int

/-- The shapes of the `source_ids` JSON document actually written to the
`summaries` table: `HierarchicalSummaryService._store_summary` writes an
object with a `ticket_id` / `issue_id` / `account_id` key, or (for
`all_tickets`) an object with `ticket_ids` and `date_range` keys, or the
empty object; `SummaryService.store_summary` writes `json.dumps(source_ids)`
where `source_ids` is a plain list of ids. -/
inductive SourceIds where
  | ticketId (tid : String)
  | issueId (iid : String)
  | accountId (aid : String)
  | ticketIds (tids : List String) (drs dre : Option Time)
  | idList (ids : List String)
  | emptyObj
deriving DecidableEq, Repr

/-- The `params` dict handed to the services, with exactly the keys the two
services read (`params.get(...)` / `params['...']`).  Absent list-valued keys
are the empty list (falsy, like an absent key in Python), absent scalars are
`none`. `filters` is an insertion-ordered dict of scalars. -/
structure Params where
  filters : List (String × String) := []
  date_range_start : Option Time := none
  date_range_end : Option Time := none
  ticket_id : Option String := none
  issue_id : Option String := none
  account_id : Option String := none
  include_ticket_ids : List String := []
  exclude_ticket_ids : List String := []
  force_regenerate : Bool := false
  use_raw_data : Bool := true
deriving DecidableEq, Repr

/-- The `query_params` JSON document stored in a summaries row:
`SummaryService.store_summary` stores the whole `params` dict
(`json.dumps(query_params)`), while `HierarchicalSummaryService._store_summary`
builds a fresh dict with keys `force_regenerate`, optionally `date_range`,
optionally `include_ticket_ids` / `exclude_ticket_ids`.  Equality of this type
models `jsonb` equality of the stored documents. -/
inductive QueryParams where
  | svc (p : Params)
  | hier (force_regenerate : Bool) (date_range : Option (Option Time × Option Time))
      (include_ticket_ids exclude_ticket_ids : Option (List String))
deriving DecidableEq, Repr

/-- One row of the `summaries` table, with the columns the embedded code
reads or writes. -/
structure SummaryRow where
  id : Nat
  summary_type : String
  hierarchy_level : String := ""
  category : String := ""
  summary : String := ""
  source_type : String := ""
  source_ids : SourceIds := .emptyObj
  source_summary_ids : Option (List Nat) := none
  query_params : QueryParams := .hier false none none none
  date_range_start : Option Time := none
  date_range_end : Option Time := none
  metadata : String := ""
  hash_signature : String := ""
  last_generated_at : Time := 0
  last_verified_at : Time := 0
  is_valid : Bool := true
deriving DecidableEq, Repr

/-- The `summaries` table. -/
abbrev Store := List SummaryRow

/-- The `summary_relationships` table: (parent_summary_id, child_summary_id)
rows, relationship_type is always 'aggregation'. -/
abbrev Rels := List (Nat × Nat)

/-! ### JSON serialization used by `calculate_source_data_hash`

`json.dumps(data, sort_keys=True)` over a list of flat database-row dicts
(column name to value, values rendered as JSON strings). -/

/-- One resolved database row, as the `dict(row)` Python builds: ordered
(column, value) pairs with pairwise-distinct column names. -/
abbrev Record := List (String × String)

/-- Serialization of one key/value pair, `json.dumps` default separators. -/
def dumpsPair (kv : String × String) : String :=
  "\"" ++ kv.1 ++ "\": \"" ++ kv.2 ++ "\""

/-- Serialization of a flat dict in the given key order. -/
def dumpsDict (kvs : Record) : String :=
  "\x7b" ++ String.intercalate ", " (kvs.map dumpsPair) ++ "\x7d"

/-- Code-point lexicographic comparison of character lists (the ordering
Python's `sorted` uses on strings), written as a structurally recursive
boolean so that it evaluates. -/
def charsLe : List Char → List Char → Bool
  | [], _ => true
  | _ :: _, [] => false
  | a :: as, b :: bs =>
    if a = b then charsLe as bs
    else decide (a ≤ b)

/-- String comparison: code-point lexicographic order on the characters. -/
def strLe (a b : String) : Bool :=
  charsLe a.data b.data

/-- Helper: `charsLe` is total. -/
theorem charsLe_total : ∀ as bs : List Char, charsLe as bs = true ∨ charsLe bs as = true
  | [], _ => Or.inl rfl
  | _ :: _, [] => Or.inr rfl
  | a :: as, b :: bs => by
    unfold charsLe
    by_cases h : a = b
    · rw [if_pos h, if_pos h.symm]
      exact charsLe_total as bs
    · rw [if_neg h, if_neg (fun hh => h hh.symm)]
      rcases le_total a b with hle | hle
      · exact Or.inl (decide_eq_true hle)
      · exact Or.inr (decide_eq_true hle)

/-- Helper: `charsLe` is transitive. -/
theorem charsLe_trans : ∀ as bs cs : List Char,
    charsLe as bs = true → charsLe bs cs = true → charsLe as cs = true
  | [], _, _ => fun _ _ => rfl
  | _ :: _, [], _ => fun h _ => by simp [charsLe] at h
  | _ :: _, _ :: _, [] => fun _ h => by simp [charsLe] at h
  | a :: as, b :: bs, c :: cs => fun hab hbc => by
    unfold charsLe at hab hbc ⊢
    by_cases h1 : a = b <;> by_cases h2 : b = c
    · rw [if_pos h1] at hab
      rw [if_pos h2] at hbc
      rw [if_pos (h1.trans h2)]
      exact charsLe_trans as bs cs hab hbc
    · rw [if_neg h2] at hbc
      have hac : ¬ a = c := fun hh => h2 (h1 ▸ hh)
      rw [if_neg hac, h1]
      exact hbc
    · rw [if_neg h1] at hab
      have hac : ¬ a = c := fun hh => h1 (hh.trans h2.symm)
      rw [if_neg hac, ← h2]
      exact hab
    · rw [if_neg h1] at hab
      rw [if_neg h2] at hbc
      have hab' := of_decide_eq_true hab
      have hbc' := of_decide_eq_true hbc
      by_cases hac : a = c
      · exact absurd (le_antisymm hab' (hac ▸ hbc')) h1
      · rw [if_neg hac]
        exact decide_eq_true (le_trans hab' hbc')

/-- Helper: `charsLe` is antisymmetric. -/
theorem charsLe_antisymm : ∀ as bs : List Char,
    charsLe as bs = true → charsLe bs as = true → as = bs
  | [], [] => fun _ _ => rfl
  | [], _ :: _ => fun _ h => by simp [charsLe] at h
  | _ :: _, [] => fun h _ => by simp [charsLe] at h
  | a :: as, b :: bs => fun hab hba => by
    unfold charsLe at hab hba
    by_cases h : a = b
    · rw [if_pos h] at hab
      rw [if_pos h.symm] at hba
      rw [h, charsLe_antisymm as bs hab hba]
    · rw [if_neg h] at hab
      rw [if_neg (fun hh => h hh.symm)] at hba
      exact absurd (le_antisymm (of_decide_eq_true hab) (of_decide_eq_true hba)) h

/-- Helper: strings with equal character data are equal. -/
theorem eq_of_data_eq {a b : String} (h : a.data = b.data) : a = b := by
  cases a
  cases b
  cases h
  rfl

/-- The order `sort_keys=True` sorts entries by: lexicographic on
(key, value).  On a dict (pairwise-distinct keys) this coincides with sorting
by key alone. -/
def keyLe (a b : String × String) : Prop :=
  if a.1 = b.1 then strLe a.2 b.2 = true else strLe a.1 b.1 = true

instance : DecidableRel keyLe := fun a b => by
  unfold keyLe; infer_instance

/-- Serialization of one dict with `sort_keys=True`. -/
def dumpsSortedDict (kvs : Record) : String :=
  dumpsDict (List.insertionSort keyLe kvs)

/-- `json.dumps(data, sort_keys=True)` for a list of flat row dicts. -/
def dumpsRecordList (rs : List Record) : String :=
  "[" ++ String.intercalate ", " (rs.map dumpsSortedDict) ++ "]"

/-! ### SummaryService (`app/services/data/summary_service.py`) -/

/-- The `zendesk_tickets` table: zd_ticket_id (compared as text) to full row. -/
abbrev TicketsDB := List (String × Record)

/-- `db.fetchrow("SELECT * FROM zendesk_tickets WHERE zd_ticket_id = $1", id)`. -/
def fetch_zendesk_ticket (tickets : TicketsDB) (tid : String) : Option Record :=
  (tickets.find? (fun t => t.1 = tid)).map (fun t => t.2)

/-- What `for ticket_id in source_ids` iterates over: the elements of a JSON
list, or the keys of a JSON object (Python dict iteration yields keys). -/
def sourceIdIter : SourceIds → List String
  | .ticketId _ => ["ticket_id"]
  | .issueId _ => ["issue_id"]
  | .accountId _ => ["account_id"]
  | .ticketIds _ _ _ => ["ticket_ids", "date_range"]
  | .idList ids => ids
  | .emptyObj => []

/-- The loop body of `calculate_source_data_hash` for `summary_type ==
'ticket'`: fetch each id in order, append the row dict when found. -/
def collectTicketData (tickets : TicketsDB) (ids : List String) : List Record :=
  ids.filterMap (fun i => fetch_zendesk_ticket tickets i)

/-- `SummaryService.calculate_source_data_hash`: data is accumulated only for
`summary_type == 'ticket'` (for every other type the list stays empty), then
`hashlib.sha256(json.dumps(data, sort_keys=True).encode()).hexdigest()`.
`digest` abstracts the sha256 hexdigest. -/
def calculate_source_data_hash (digest : String → String) (tickets : TicketsDB)
    (source_ids : List String) (summary_type : String) : String :=
  let data : List Record :=
    if summary_type = "ticket" then collectTicketData tickets source_ids else []
  digest (dumpsRecordList data)

/-- The exception text of evaluating `db.transaction`: `DatabaseService`
(app/services/database/database.py, 145 lines, methods connect/close/
connection/execute/fetch/fetchrow/fetchval/...) defines no `transaction`
method, so the attribute lookup raises. -/
def transactionAttributeError : String :=
  "AttributeError: 'DatabaseService' object has no attribute 'transaction'"

/-- Evaluating `async with db.transaction():` — the attribute lookup on the
global `db : DatabaseService` raises AttributeError before the with-block's
body can run. -/
def db_transaction : Except String Unit :=
  .error transactionAttributeError

/-- The per-row effect of `UPDATE summaries SET is_valid = false WHERE id =
ANY($1)`. -/
def setInvalidStep (ids : List Nat) (r : SummaryRow) : SummaryRow :=
  if ids.contains r.id then { r with is_valid := false } else r

/-- `UPDATE summaries SET is_valid = false WHERE id = ANY($1)`. -/
def setInvalid (store : Store) (ids : List Nat) : Store :=
  store.map (setInvalidStep ids)

/-- One expansion round plus recursion of the `WITH RECURSIVE dependents`
CTE in `invalidate_summary`, with fuel: from the accumulated set of
child ids, join `summary_relationships` on `parent_summary_id` and add the new
`child_summary_id`s, until a fixpoint. -/
def cteIter : Nat → Rels → List Nat → List Nat
  | 0, _, acc => acc
  | n + 1, rels, acc =>
    let next := ((rels.filter (fun e => acc.contains e.1)).map (fun e => e.2)).filter
      (fun c => !acc.contains c)
    if next.isEmpty then acc else cteIter n rels (acc ++ next)

/-- The full recursive CTE of `SummaryService.invalidate_summary`: base case
`SELECT child_summary_id WHERE parent_summary_id = $1`, recursive case joins
on `sr.parent_summary_id = d.child_summary_id`; i.e. it walks parent-to-child
edges starting from `root`. -/
def cteDependents (rels : Rels) (root : Nat) : List Nat :=
  cteIter (rels.length + 1) rels ((rels.filter (fun e => e.1 = root)).map (fun e => e.2))

/-- `SummaryService.invalidate_summary`: its first statement is `async with
db.transaction():`, and `DatabaseService` has no `transaction` method, so
every call raises AttributeError before any UPDATE runs; the error carries
the untouched store.  The with-block body it would run — set the row itself
invalid, then set invalid every id the recursive CTE returns — is kept as
the (unreachable) `.ok` branch, translated from the SQL. -/
def invalidate_summary (store : Store) (rels : Rels) (sid : Nat) :
    Except (String × Store) Store :=
  match db_transaction with
  | .error e => .error (e, store)
  | .ok _ => .ok (setInvalid (setInvalid store [sid]) (cteDependents rels sid))

/-- `SummaryService.update_verification_time`. -/
def update_verification_time (store : Store) (sid : Nat) (now : Time) : Store :=
  store.map (fun r => if r.id = sid then { r with last_verified_at := now } else r)

/-- `SummaryService.SUMMARY_TYPES[t]['ttl_hours']`; `none` models the
`KeyError` on an unknown type. -/
def SUMMARY_TYPES_ttl_hours : String → Option Int
  | "ticket" => some 24
  | "multi_ticket" => some 48
  | "company" => some 72
  | "multi_company" => some 96
  | _ => none

/-- `SummaryService.is_summary_valid`.  Returns the boolean result, the store
after any side effect (`update_verification_time` on a hash match), and the
number of source-hash recomputations performed (0 or 1).  The `.error` cases
are the `KeyError` on an unknown `summary_type` and, on a hash mismatch, the
AttributeError that `invalidate_summary` raises at `db.transaction()` —
which propagates out of this function before `return False` is reached,
leaving the row valid. -/
def is_summary_valid (digest : String → String) (tickets : TicketsDB)
    (store : Store) (rels : Rels) (s : SummaryRow) (now : Time) :
    Except String (Bool × Store × Nat) :=
  match SUMMARY_TYPES_ttl_hours s.summary_type with
  | none => .error ("KeyError: " ++ s.summary_type)
  | some ttl =>
    if now - s.last_verified_at > ttl * 3600 then
      let current := calculate_source_data_hash digest tickets
        (sourceIdIter s.source_ids) s.summary_type
      if current ≠ s.hash_signature then
        match invalidate_summary store rels s.id with
        | .error ep => .error ep.1
        | .ok st1 => .ok (false, st1, 1)
      else
        .ok (true, update_verification_time store s.id now, 1)
    else
      .ok (true, store, 0)

/-- `SummaryService.store_summary_relationships`: delete every relationship
row of this parent, then insert one (parent, child, 'aggregation') row per
child. -/
def store_summary_relationships (rels : Rels) (parent : Nat) (children : List Nat) : Rels :=
  (rels.filter (fun e => e.1 ≠ parent)) ++ children.map (fun c => (parent, c))

/-- The conflict target of `SummaryService.store_summary`'s upsert:
`ON CONFLICT (summary_type, query_params, date_range_start, date_range_end)`. -/
def rowKey (r : SummaryRow) : String × QueryParams × Option Time × Option Time :=
  (r.summary_type, r.query_params, r.date_range_start, r.date_range_end)

/-- The per-row effect of the upsert's `DO UPDATE` branch: the conflicting
row (identified by its id) is replaced by the updated row, all others stay. -/
def replaceById (oldId : Nat) (updated : SummaryRow) (r : SummaryRow) : SummaryRow :=
  if r.id = oldId then updated else r

/-- Python truthiness of the optional `source_summary_ids` list: `None` and
`[]` are both falsy. -/
def truthyList : Option (List Nat) → Option (List Nat)
  | some (c :: cs) => some (c :: cs)
  | _ => none

/-- The row the upsert's `DO UPDATE` branch writes over the conflicting row:
content fields, both timestamps, `is_valid = true`; the four key columns are
left unchanged. -/
def svcUpdatedRow (now : Time) (summary_text source_type : String)
    (source_ids : List String) (ssids : Option (List Nat))
    (hash_signature metadata : String) (old : SummaryRow) : SummaryRow :=
  { old with
    summary := summary_text
    source_type := source_type
    source_ids := .idList source_ids
    source_summary_ids := ssids
    metadata := metadata
    hash_signature := hash_signature
    last_generated_at := now
    last_verified_at := now
    is_valid := true }

/-- The row inserted when no row conflicts.  `last_generated_at`,
`last_verified_at` and `is_valid` are not in the INSERT's column list and
take the table defaults: the DDL is not in the repository, so (modelled from
the spec lifecycle: an artifact is created valid at the Store step) they are
taken as `now`, `now` and `true`. -/
def svcFreshRow (now : Time) (freshId : Nat)
    (summary_type summary_text source_type : String) (source_ids : List String)
    (ssids : Option (List Nat)) (query_params : Params)
    (hash_signature metadata : String) : SummaryRow :=
  { id := freshId
    summary_type := summary_type
    summary := summary_text
    source_type := source_type
    source_ids := .idList source_ids
    source_summary_ids := ssids
    query_params := .svc query_params
    date_range_start := query_params.date_range_start
    date_range_end := query_params.date_range_end
    metadata := metadata
    hash_signature := hash_signature
    last_generated_at := now
    last_verified_at := now
    is_valid := true }

/-- `SummaryService.store_summary`: the try-block's first statement is
`async with db.transaction():`, and `DatabaseService` has no `transaction`
method, so every call raises AttributeError (logged and re-raised) before
the INSERT runs: nothing is ever stored and no row is returned; the error
carries the untouched store and relationships.  The with-block body it would
run — `INSERT ... ON CONFLICT (summary_type, query_params,
date_range_start, date_range_end) DO UPDATE` setting content fields, both
timestamps and `is_valid = true`, then `store_summary_relationships` when
`source_summary_ids` is truthy — is kept as the (unreachable) `.ok` branch,
translated from the SQL.  `freshId` is the id the database would assign to a
fresh row. -/
def store_summary (store : Store) (rels : Rels) (now : Time) (freshId : Nat)
    (summary_type summary_text source_type : String) (source_ids : List String)
    (source_summary_ids : Option (List Nat)) (query_params : Params)
    (hash_signature metadata : String) :
    Except (String × Store × Rels) (Store × Rels × SummaryRow) :=
  match db_transaction with
  | .error e => .error (e, store, rels)
  | .ok _ =>
    match store.find? (fun r => rowKey r =
        (summary_type, .svc query_params,
          query_params.date_range_start, query_params.date_range_end)) with
    | some old =>
      .ok (store.map (replaceById old.id (svcUpdatedRow now summary_text source_type
          source_ids (truthyList source_summary_ids) hash_signature metadata old)),
        (match truthyList source_summary_ids with
        | some cs => store_summary_relationships rels old.id cs
        | none => rels),
        svcUpdatedRow now summary_text source_type source_ids
          (truthyList source_summary_ids) hash_signature metadata old)
    | none =>
      .ok (store ++ [svcFreshRow now freshId summary_type summary_text source_type
          source_ids (truthyList source_summary_ids) query_params hash_signature metadata],
        (match truthyList source_summary_ids with
        | some cs => store_summary_relationships rels freshId cs
        | none => rels),
        svcFreshRow now freshId summary_type summary_text source_type source_ids
          (truthyList source_summary_ids) query_params hash_signature metadata)

/-! ### HierarchicalSummaryService
(`app/services/data/hierarchical_summary_service.py`) -/

/-- The payload `_get_source_data` resolves, with exactly the pieces
`_store_summary` later reads: `source_data.get('ticket', {}).get('zd_ticket_id')`,
`source_data.get('issue', {}).get('jira_issue_id')`,
`source_data.get('account', {}).get('sf_account_id')`,
`[t.get('zd_ticket_id') for t in source_data.get('tickets', [])]`, and
`source_data.get('metadata', {})` (kept serialized).  `py_str` is the
`str(source_data)` rendering that `_store_summary` hashes. -/
structure SourceData where
  ticket_zd_ticket_id : Option Int := none
  issue_jira_issue_id : Option String := none
  account_sf_account_id : Option String := none
  tickets_zd_ticket_ids : List Int := []
  metadata : String := "\x7b\x7d"
  py_str : String := ""
deriving DecidableEq, Repr

/-- Python `str(...)` of an optional int, `None` rendered as `'None'`
(`str(ticket.get('zd_ticket_id'))` when the key is absent). -/
def pyStrOptInt : Option Int → String
  | none => "None"
  | some n => toString n

/-- The jsonb containment test `(source_ids->'ticket_ids')::jsonb @>
json.dumps([str(ticket_id)])::jsonb`: rows whose `source_ids` carry no
`ticket_ids` key yield SQL NULL and are not matched. -/
def ticketIdsContain (s : SourceIds) (tid : String) : Bool :=
  match s with
  | .ticketIds tids _ _ => tids.contains tid
  | _ => false

/-- The per-row effect of the UPDATE in `_invalidate_group_summaries`: a row
matching its WHERE clause (`summary_type = 'all_tickets'`, containment of the
ticket id, `is_valid = true`) gets `is_valid = false`; other rows are
untouched. -/
def groupInvalidationStep (tid : String) (r : SummaryRow) : SummaryRow :=
  if r.summary_type = "all_tickets" ∧ ticketIdsContain r.source_ids tid = true
      ∧ r.is_valid = true then
    { r with is_valid := false }
  else r

/-- `HierarchicalSummaryService._invalidate_group_summaries`: one UPDATE
setting `is_valid = false` on every row with `summary_type = 'all_tickets'`,
`is_valid = true`, and `source_ids->'ticket_ids'` containing
`str(ticket_id)`. -/
def invalidate_group_summaries (store : Store) (ticket_id : Option Int) : Store :=
  store.map (groupInvalidationStep (pyStrOptInt ticket_id))

/-- Helper: the row transform of `_invalidate_group_summaries` on a matching
row. -/
theorem groupInvalidationStep_eq_pos (tid : String) (r : SummaryRow)
    (hc : r.summary_type = "all_tickets" ∧ ticketIdsContain r.source_ids tid = true
      ∧ r.is_valid = true) :
    groupInvalidationStep tid r = { r with is_valid := false } := by
  unfold groupInvalidationStep
  exact if_pos hc

/-- Helper: the row transform of `_invalidate_group_summaries` on a
non-matching row. -/
theorem groupInvalidationStep_eq_neg (tid : String) (r : SummaryRow)
    (hc : ¬(r.summary_type = "all_tickets" ∧ ticketIdsContain r.source_ids tid = true
      ∧ r.is_valid = true)) :
    groupInvalidationStep tid r = r := by
  unfold groupInvalidationStep
  exact if_neg hc

/-- The loop over `HierarchicalSummaryService.SUMMARY_TYPES` that picks the
first level whose type dict contains `summary_type`, defaulting to
'individual'. -/
def hierarchyLevel (summary_type : String) : String :=
  if summary_type ∈ ["zendesk_ticket", "jira_issue", "salesforce_account"] then "individual"
  else if summary_type ∈ ["all_tickets", "all_issues", "all_accounts"] then "group"
  else if summary_type = "system_wide" then "global"
  else "individual"

/-- The `category_mapping` dict of `_store_summary`, default ('other', 'other'). -/
def categoryMapping (summary_type : String) : String × String :=
  if summary_type = "zendesk_ticket" ∨ summary_type = "all_tickets" then ("zendesk", "zendesk")
  else if summary_type = "jira_issue" ∨ summary_type = "all_issues" then ("jira", "jira")
  else if summary_type = "salesforce_account" ∨ summary_type = "all_accounts" then
    ("salesforce", "salesforce")
  else if summary_type = "system_wide" then ("system", "system")
  else ("other", "other")

/-- The `source_ids` document `_store_summary` prepares per summary type.
For `all_tickets` the resolved ticket ids are kept (as strings) and, when
`include_ticket_ids` is truthy, filtered to the included ids. -/
def hierSourceIds (summary_type : String) (sd : SourceData) (params : Params) : SourceIds :=
  if summary_type = "zendesk_ticket" then .ticketId (pyStrOptInt sd.ticket_zd_ticket_id)
  else if summary_type = "jira_issue" then
    .issueId (sd.issue_jira_issue_id.getD "None")
  else if summary_type = "salesforce_account" then
    .accountId (sd.account_sf_account_id.getD "None")
  else if summary_type = "all_tickets" then
    let ticket_ids := sd.tickets_zd_ticket_ids.map toString
    let ticket_ids :=
      if params.include_ticket_ids ≠ [] then
        ticket_ids.filter (fun i => params.include_ticket_ids.contains i)
      else ticket_ids
    .ticketIds ticket_ids params.date_range_start params.date_range_end
  else .emptyObj

/-- The `query_params` document `_store_summary` prepares: always
`force_regenerate`, a `date_range` key only when a bound is set, and
include/exclude lists only when truthy. -/
def hierQueryParams (params : Params) : QueryParams :=
  .hier params.force_regenerate
    (if params.date_range_start.isSome ∨ params.date_range_end.isSome then
      some (params.date_range_start, params.date_range_end)
    else none)
    (if params.include_ticket_ids ≠ [] then some params.include_ticket_ids else none)
    (if params.exclude_ticket_ids ≠ [] then some params.exclude_ticket_ids else none)

/-- `HierarchicalSummaryService._store_summary`.  For a `zendesk_ticket` it
first runs `_invalidate_group_summaries` (a separate committed UPDATE, issued
before the INSERT and not inside any transaction), then executes a plain
`INSERT ... RETURNING *` — there is no ON CONFLICT clause.  The
`hash_signature` is `str(hash(str(source_data)))` with Python's builtin
process-salted `hash`, abstracted as `pyHash`.  `insertOk = false` models the
INSERT statement raising; the exception is re-raised, and the error carries
the store as left behind (the pre-insert invalidation is not rolled back).
The inserted row's `is_valid` column is not in the column list and takes the
table default; the DDL is not in the repository, so (modelled from the spec
lifecycle: an artifact is created valid at the Store step) the default is
taken as `true`. -/
def hier_store_summary (pyHash : String → Int) (store : Store) (now : Time)
    (freshId : Nat) (summary_type summary_text : String) (sd : SourceData)
    (params : Params) (insertOk : Bool) :
    Except (String × Store) (Store × SummaryRow) :=
  let cs := categoryMapping summary_type
  let store1 :=
    if summary_type = "zendesk_ticket" then
      invalidate_group_summaries store sd.ticket_zd_ticket_id
    else store
  if insertOk then
    let row : SummaryRow := {
      id := freshId
      summary_type := summary_type
      hierarchy_level := hierarchyLevel summary_type
      category := cs.1
      summary := summary_text
      source_type := cs.2
      source_ids := hierSourceIds summary_type sd params
      source_summary_ids := none
      query_params := hierQueryParams params
      date_range_start := params.date_range_start
      date_range_end := params.date_range_end
      metadata := sd.metadata
      hash_signature := toString (pyHash sd.py_str)
      last_generated_at := now
      last_verified_at := now
      is_valid := true }
    .ok (store1 ++ [row], row)
  else
    .error ("insert failed", store1)

/-- SQL NULL-tolerant date-range match of `_get_valid_cached_summary`:
`(col IS NULL AND param IS NULL) OR col = param`. -/
def drMatch : Option Time → Option Time → Bool
  | none, none => true
  | some a, some b => a = b
  | _, _ => false

/-- `ORDER BY last_generated_at DESC LIMIT 1` over the matched rows; among
rows with equal `last_generated_at` SQL leaves the choice unspecified, and
the model keeps the earliest-listed one. -/
def pickLatest : List SummaryRow → Option SummaryRow
  | [] => none
  | r :: rs =>
    match pickLatest rs with
    | none => some r
    | some m => if m.last_generated_at > r.last_generated_at then some m else some r

/-- The WHERE clause of `_get_valid_cached_summary`: only `summary_type`,
`is_valid` and the two date-range columns are compared — `query_params` is
not part of the lookup. -/
def hierLookupRows (store : Store) (summary_type : String) (params : Params) : List SummaryRow :=
  store.filter (fun r =>
    r.summary_type = summary_type ∧ r.is_valid = true
      ∧ drMatch r.date_range_start params.date_range_start
      ∧ drMatch r.date_range_end params.date_range_end)

/-- `HierarchicalSummaryService._get_valid_cached_summary`.  `readOk = false`
models the database read raising; the `except` clause catches every
exception and returns `None` (a cache miss), never re-raising. -/
def hier_get_valid_cached_summary (store : Store) (summary_type : String)
    (params : Params) (readOk : Bool) : Option SummaryRow :=
  if readOk then pickLatest (hierLookupRows store summary_type params)
  else none

/-- `HierarchicalSummaryService._get_source_data`: dispatch on the four
implemented summary types, else `raise ValueError(f"Unsupported summary
type: ...")`.  The four per-type fetchers (`_get_ticket_data`,
`_get_issue_data`, `_get_account_data`, `_get_all_tickets_data`) resolve rows
from the database and are taken as parameters; their `NotFound` errors are
the `.error` case. -/
def hier_get_source_data
    (getTicket getIssue getAccount getAllTickets : Params → Except String SourceData)
    (summary_type : String) (params : Params) : Except String SourceData :=
  if summary_type = "zendesk_ticket" then getTicket params
  else if summary_type = "jira_issue" then getIssue params
  else if summary_type = "salesforce_account" then getAccount params
  else if summary_type = "all_tickets" then getAllTickets params
  else .error ("Unsupported summary type: " ++ summary_type)

/-- `HierarchicalSummaryService._format_ticket_summary_markdown`: split on
the marker, keep `parts[1]` after the marker when it occurs, else the whole
text. -/
def format_ticket_summary_markdown (summary_text : String) : String :=
  match summary_text.splitOn "Based on the open tickets" with
  | _ :: p1 :: _ => "Based on the open tickets" ++ p1
  | _ => summary_text

/-- `HierarchicalSummaryService._generate_summary`: resolve source data
(errors propagate with the store untouched — nothing has been written yet),
call the LLM (`llm` abstracts `llm_service.generate_summary`), apply the
`all_tickets` markdown formatting, then `_store_summary`. -/
def hier_generate_summary (pyHash : String → Int) (llm : SourceData → String → String)
    (getTicket getIssue getAccount getAllTickets : Params → Except String SourceData)
    (store : Store) (now : Time) (freshId : Nat) (summary_type : String)
    (params : Params) (insertOk : Bool) :
    Except (String × Store) (Store × SummaryRow) :=
  match hier_get_source_data getTicket getIssue getAccount getAllTickets summary_type params with
  | .error e => .error (e, store)
  | .ok sd =>
    let summary_text := llm sd summary_type
    let formatted :=
      if summary_type = "all_tickets" then format_ticket_summary_markdown summary_text
      else summary_text
    hier_store_summary pyHash store now freshId summary_type formatted sd params insertOk

/-- Whether a result was served from cache (`cached`) or generated by this
pass (`generated`). -/
inductive GenOutcome where
  | cached (r : SummaryRow)
  | generated (r : SummaryRow)
deriving DecidableEq, Repr

/-- `HierarchicalSummaryService.get_or_generate_summary`: unless
`force_regenerate`, try the cached lookup and return it on a hit; otherwise
generate, store and return the new summary.  Errors of the generate path
re-raise. -/
def hier_get_or_generate_summary (pyHash : String → Int) (llm : SourceData → String → String)
    (getTicket getIssue getAccount getAllTickets : Params → Except String SourceData)
    (store : Store) (now : Time) (freshId : Nat) (summary_type : String)
    (params : Params) (force_regenerate : Bool) (readOk insertOk : Bool) :
    Except (String × Store) (Store × GenOutcome) :=
  if force_regenerate = false then
    match hier_get_valid_cached_summary store summary_type params readOk with
    | some r => .ok (store, .cached r)
    | none =>
      (hier_generate_summary pyHash llm getTicket getIssue getAccount getAllTickets
        store now freshId summary_type params insertOk).map
        (fun p => (p.1, .generated p.2))
  else
    (hier_generate_summary pyHash llm getTicket getIssue getAccount getAllTickets
      store now freshId summary_type params insertOk).map
      (fun p => (p.1, .generated p.2))

/-! ### Theorems -/

/-- C5: for a validity check of an existing summary row at a time `now` with
`now − last_verified_at` strictly below the configured TTL for its
summary type, `SummaryService.is_summary_valid` returns True, performs zero
source-hash recomputations (no `zendesk_tickets` row is read, the
hash_signature is not recomputed), and leaves the store untouched — whatever
the underlying source data now contains. -/
theorem ttl_window_check_valid_without_hash
    (digest : String → String) (tickets : TicketsDB) (store : Store) (rels : Rels)
    (s : SummaryRow) (now : Time) (ttl : Int)
    (httl : SUMMARY_TYPES_ttl_hours s.summary_type = some ttl)
    (hwin : now - s.last_verified_at < ttl * 3600) :
    is_summary_valid digest tickets store rels s now = .ok (true, store, 0) := by
  unfold is_summary_valid
  rw [httl]
  have h : ¬ (now - s.last_verified_at > ttl * 3600) := not_lt.mpr (le_of_lt hwin)
  simp [h]

/-- Witness for C5: a 'ticket' summary verified at time 0 and rechecked at
time 100, inside the 24-hour TTL. -/
theorem ttl_window_check_valid_without_hash_witness :
    is_summary_valid (fun s => s) [] [] [] { id := 1, summary_type := "ticket" } 100
      = .ok (true, [], 0) :=
  ttl_window_check_valid_without_hash (fun s => s) [] [] []
    { id := 1, summary_type := "ticket" } 100 24 rfl (by decide)

/-- C9: for summary types 'system_wide', 'all_issues' and 'all_accounts',
every `HierarchicalSummaryService.get_or_generate_summary` call that reaches
the generation path (forced regeneration, or no valid cached row) hits the
fall-through of `_get_source_data`, raises `ValueError('Unsupported summary
type: ...')`, and stores nothing: the error propagates with the store
unchanged. -/
theorem generation_unsupported_for_global_types
    (pyHash : String → Int) (llm : SourceData → String → String)
    (getTicket getIssue getAccount getAllTickets : Params → Except String SourceData)
    (store : Store) (now : Time) (freshId : Nat) (stype : String) (params : Params)
    (force readOk insertOk : Bool)
    (hty : stype = "system_wide" ∨ stype = "all_issues" ∨ stype = "all_accounts")
    (hgen : force = true ∨ hier_get_valid_cached_summary store stype params readOk = none) :
    hier_get_or_generate_summary pyHash llm getTicket getIssue getAccount getAllTickets
      store now freshId stype params force readOk insertOk
      = .error ("Unsupported summary type: " ++ stype, store) := by
  have hsrc : hier_get_source_data getTicket getIssue getAccount getAllTickets stype params
      = .error ("Unsupported summary type: " ++ stype) := by
    rcases hty with h | h | h <;> subst h <;> rfl
  have hg : hier_generate_summary pyHash llm getTicket getIssue getAccount getAllTickets
      store now freshId stype params insertOk
      = .error ("Unsupported summary type: " ++ stype, store) := by
    unfold hier_generate_summary
    rw [hsrc]
  rcases hgen with h | h
  · subst h
    unfold hier_get_or_generate_summary
    simp [hg, Except.map]
  · unfold hier_get_or_generate_summary
    cases hforce : force with
    | false => simp [h, hg, Except.map]
    | true => simp [hg, Except.map]

/-- Witness for C9: the global-summary endpoint's type 'system_wide' with
force_regenerate set errors out and leaves the (empty) store unchanged. -/
theorem generation_unsupported_for_global_types_witness :
    hier_get_or_generate_summary (fun _ => 0) (fun _ _ => "") (fun _ => .error "u")
      (fun _ => .error "u") (fun _ => .error "u") (fun _ => .error "u")
      [] 0 1 "system_wide" {} true true true
      = .error ("Unsupported summary type: " ++ "system_wide", []) :=
  generation_unsupported_for_global_types _ _ _ _ _ _ _ _ _ _ _ _ _ _
    (Or.inl rfl) (Or.inl rfl)

/-- C10: a database error during the cached-summary lookup is caught inside
`_get_valid_cached_summary` and converted into a cache miss (`None`), and
`get_or_generate_summary` then proceeds with the full fetch/generate/store
path; the lookup failure is never surfaced to the caller. -/
theorem lookup_error_is_cache_miss
    (pyHash : String → Int) (llm : SourceData → String → String)
    (getTicket getIssue getAccount getAllTickets : Params → Except String SourceData)
    (store : Store) (now : Time) (freshId : Nat) (stype : String) (params : Params)
    (insertOk : Bool) :
    hier_get_valid_cached_summary store stype params false = none ∧
    hier_get_or_generate_summary pyHash llm getTicket getIssue getAccount getAllTickets
      store now freshId stype params false false insertOk
      = (hier_generate_summary pyHash llm getTicket getIssue getAccount getAllTickets
          store now freshId stype params insertOk).map
          (fun p => (p.1, .generated p.2)) :=
  ⟨rfl, rfl⟩

/-- Individual 'ticket' summary A of the C2 dependency chain. -/
def rowA : SummaryRow := { id := 1, summary_type := "ticket" }

/-- Group 'multi_ticket' summary B, recorded as built from A. -/
def rowB : SummaryRow := { id := 2, summary_type := "multi_ticket" }

/-- Global 'company' summary C, recorded as built from B. -/
def rowC : SummaryRow := { id := 3, summary_type := "company" }

/-- The summaries table holding the A → B → C chain, all rows valid. -/
def chainStore : Store := [rowA, rowB, rowC]

/-- The relationships recorded when B was stored from A and C from B:
(parent_summary_id, child_summary_id) = (2, 1) and (3, 2). -/
def chainRels : Rels := [(2, 1), (3, 2)]

/-- C2: evaluation of the code at the failing input.  With B recorded as
built from A and C as built from B (exactly the rows
`store_summary_relationships` writes), one `invalidate_summary` call on A
raises AttributeError at its first statement `async with db.transaction():`
(`DatabaseService` defines no `transaction` method) before any UPDATE runs:
no row changes and A, B and C all keep `is_valid = true` — the claimed
atomic cascade never happens.  Moreover, even the recursive CTE that the
unreachable with-block body would run selects nothing for A, because it
follows parent-to-child edges (the summaries A was built *from*) instead of
the child-to-parent ancestors B and C. -/
theorem invalidate_summary_raises_before_any_update :
    chainRels = store_summary_relationships (store_summary_relationships [] 2 [1]) 3 [2] ∧
    invalidate_summary chainStore chainRels 1
      = .error (transactionAttributeError, chainStore) ∧
    (chainStore.filter (fun r => r.is_valid)).map (fun r => r.id) = [1, 2, 3] ∧
    cteDependents chainRels 1 = [] := by
  refine ⟨by decide, by decide, by decide, by decide⟩

/-- A valid 'all_tickets' group summary whose source_ids contain ticket 42. -/
def groupRow42 : SummaryRow :=
  { id := 1, summary_type := "all_tickets", hierarchy_level := "group",
    source_ids := .ticketIds ["42"] none none }

/-- Resolved source data for individual zendesk ticket 42. -/
def sdTicket42 : SourceData := { ticket_zd_ticket_id := some 42 }

/-- C3 counterexample: a Store-step failure does commit a change.  Storing an
individual summary for zendesk ticket 42 first runs
`_invalidate_group_summaries` (a separate UPDATE, not inside any
transaction); when the subsequent INSERT fails, the error propagates but the
'all_tickets' group summary containing ticket 42 — valid before the call —
has already been flipped to `is_valid = false`. -/
theorem failed_store_still_invalidates_groups :
    groupRow42.is_valid = true ∧
    hier_store_summary (fun _ => 0) [groupRow42] 10 2 "zendesk_ticket" "t"
      sdTicket42 {} false
      = .error ("insert failed", [{ groupRow42 with is_valid := false }]) := by
  refine ⟨rfl, by decide⟩

/-- C3 amended: on a failed Store step, `_store_summary` inserts no row and
makes no artifact newly valid — every row still present and valid was valid
before — but it does NOT leave prior state untouched: valid 'all_tickets'
group summaries whose source_ids contain the stored zendesk ticket id are
already invalidated by the failed pass (and only such rows change). -/
theorem failed_store_commits_no_new_validity
    (pyHash : String → Int) (store : Store) (now : Time) (freshId : Nat)
    (stype text : String) (sd : SourceData) (params : Params) (e : String) (st' : Store)
    (hres : hier_store_summary pyHash store now freshId stype text sd params false
      = .error (e, st')) :
    st'.length = store.length ∧
    (∀ r' ∈ st', r'.is_valid = true → r' ∈ store) ∧
    (∀ r ∈ store,
      r ∈ st' ∨
      (r.summary_type = "all_tickets"
        ∧ ticketIdsContain r.source_ids (pyStrOptInt sd.ticket_zd_ticket_id) = true
        ∧ r.is_valid = true
        ∧ { r with is_valid := false } ∈ st')) := by
  unfold hier_store_summary at hres
  simp only [Bool.false_eq_true, if_false, Except.error.injEq, Prod.mk.injEq] at hres
  obtain ⟨-, hst⟩ := hres
  by_cases hz : stype = "zendesk_ticket"
  · rw [if_pos hz] at hst
    subst hst
    simp only [invalidate_group_summaries]
    refine ⟨List.length_map _ _, ?_, ?_⟩
    · intro r' hr' hv
      obtain ⟨r, hr, hfr⟩ := List.mem_map.mp hr'
      by_cases hc : r.summary_type = "all_tickets"
          ∧ ticketIdsContain r.source_ids (pyStrOptInt sd.ticket_zd_ticket_id) = true
          ∧ r.is_valid = true
      · rw [groupInvalidationStep_eq_pos _ _ hc] at hfr
        rw [← hfr] at hv
        simp at hv
      · rw [groupInvalidationStep_eq_neg _ _ hc] at hfr
        rw [← hfr]
        exact hr
    · intro r hr
      by_cases hc : r.summary_type = "all_tickets"
          ∧ ticketIdsContain r.source_ids (pyStrOptInt sd.ticket_zd_ticket_id) = true
          ∧ r.is_valid = true
      · refine Or.inr ⟨hc.1, hc.2.1, hc.2.2, ?_⟩
        have hm := List.mem_map_of_mem
          (groupInvalidationStep (pyStrOptInt sd.ticket_zd_ticket_id)) hr
        rw [groupInvalidationStep_eq_pos _ _ hc] at hm
        exact hm
      · refine Or.inl ?_
        have hm := List.mem_map_of_mem
          (groupInvalidationStep (pyStrOptInt sd.ticket_zd_ticket_id)) hr
        rw [groupInvalidationStep_eq_neg _ _ hc] at hm
        exact hm
  · rw [if_neg hz] at hst
    subst hst
    exact ⟨rfl, fun r' h _ => h, fun r hr => Or.inl hr⟩

/-- Witness for the amended C3 theorem, at the concrete failed store of a
summary for zendesk ticket 42 over a store holding one containing group
summary. -/
theorem failed_store_commits_no_new_validity_witness :
    ([{ groupRow42 with is_valid := false }] : Store).length = ([groupRow42] : Store).length ∧
    (∀ r' ∈ ([{ groupRow42 with is_valid := false }] : Store), r'.is_valid = true →
      r' ∈ ([groupRow42] : Store)) ∧
    (∀ r ∈ ([groupRow42] : Store),
      r ∈ ([{ groupRow42 with is_valid := false }] : Store) ∨
      (r.summary_type = "all_tickets"
        ∧ ticketIdsContain r.source_ids (pyStrOptInt sdTicket42.ticket_zd_ticket_id) = true
        ∧ r.is_valid = true
        ∧ { r with is_valid := false } ∈ ([{ groupRow42 with is_valid := false }] : Store))) :=
  failed_store_commits_no_new_validity (fun _ => 0) [groupRow42] 10 2 "zendesk_ticket" "t"
    sdTicket42 {} "insert failed" [{ groupRow42 with is_valid := false }] (by decide)

/-- The spec's containment relation "every artifact whose source_ids set
contains item_id", following the spec's words, to be compared with the
containment check the code actually runs (`ticketIdsContain`, which inspects
only a `ticket_ids` key of 'all_tickets' rows). -/
def specContainsItem (s : SourceIds) (item : String) : Bool :=
  match s with
  | .ticketId t => t = item
  | .issueId i => i = item
  | .accountId a => a = item
  | .ticketIds tids _ _ => tids.contains item
  | .idList ids => ids.contains item
  | .emptyObj => false

/-- A valid group-level summary whose source_ids contain Jira issue J-1. -/
def groupIssueRow : SummaryRow :=
  { id := 1, summary_type := "all_issues", hierarchy_level := "group",
    source_ids := .idList ["J-1"] }

/-- Resolved source data for individual Jira issue J-1. -/
def sdIssueJ1 : SourceData := { issue_jira_issue_id := some "J-1" }

/-- C8 counterexample: storing the individual 'jira_issue' artifact J-1 runs
no containment cascade at all — the higher-level artifact whose source_ids
contain J-1 (valid before the call) is still present unchanged and valid
after the successful store, refuting the claim for summary types other than
'zendesk_ticket'. -/
theorem storing_jira_issue_invalidates_nothing :
    groupIssueRow.is_valid = true ∧
    specContainsItem groupIssueRow.source_ids "J-1" = true ∧
    ((hier_store_summary (fun _ => 0) [groupIssueRow] 10 2 "jira_issue" "t"
        sdIssueJ1 {} true).toOption.map (fun p => p.1.head?))
      = some (some groupIssueRow) := by
  refine ⟨rfl, rfl, by decide⟩

/-- C8 amended: the Store step's containment cascade runs only when the
stored artifact is a 'zendesk_ticket' summary, and then invalidates exactly
the valid 'all_tickets' rows whose `source_ids.ticket_ids` contain the
ticket id; storing a 'jira_issue' or 'salesforce_account' artifact leaves
every existing row untouched. -/
theorem store_cascade_only_zendesk_all_tickets
    (pyHash : String → Int) (store : Store) (now : Time) (freshId : Nat)
    (stype text : String) (sd : SourceData) (params : Params)
    (st' : Store) (row : SummaryRow)
    (hres : hier_store_summary pyHash store now freshId stype text sd params true
      = .ok (st', row)) :
    (stype = "jira_issue" ∨ stype = "salesforce_account" → st' = store ++ [row]) ∧
    (stype = "zendesk_ticket" →
      ∀ r ∈ store,
        ((r.summary_type = "all_tickets"
            ∧ ticketIdsContain r.source_ids (pyStrOptInt sd.ticket_zd_ticket_id) = true
            ∧ r.is_valid = true) → { r with is_valid := false } ∈ st') ∧
        (¬(r.summary_type = "all_tickets"
            ∧ ticketIdsContain r.source_ids (pyStrOptInt sd.ticket_zd_ticket_id) = true
            ∧ r.is_valid = true) → r ∈ st')) := by
  unfold hier_store_summary at hres
  simp only [if_true, Except.ok.injEq, Prod.mk.injEq] at hres
  obtain ⟨hst, hrow⟩ := hres
  constructor
  · intro hty
    rw [← hst]
    have hz : ¬ stype = "zendesk_ticket" := by
      rcases hty with h | h <;> subst h <;> decide
    rw [if_neg hz, hrow]
  · intro hz r hr
    rw [← hst, if_pos hz]
    simp only [invalidate_group_summaries]
    constructor
    · intro hc
      refine List.mem_append_left _ ?_
      have hm := List.mem_map_of_mem
        (groupInvalidationStep (pyStrOptInt sd.ticket_zd_ticket_id)) hr
      rw [groupInvalidationStep_eq_pos _ _ hc] at hm
      exact hm
    · intro hc
      refine List.mem_append_left _ ?_
      have hm := List.mem_map_of_mem
        (groupInvalidationStep (pyStrOptInt sd.ticket_zd_ticket_id)) hr
      rw [groupInvalidationStep_eq_neg _ _ hc] at hm
      exact hm

/-- The row the Store step inserts for Jira issue J-1 in the C8 witness
scenario. -/
def jraRow : SummaryRow :=
  { id := 2, summary_type := "jira_issue", hierarchy_level := "individual",
    category := "jira", summary := "t", source_type := "jira",
    source_ids := .issueId "J-1", query_params := .hier false none none none,
    metadata := "\x7b\x7d", hash_signature := "0", last_generated_at := 10,
    last_verified_at := 10 }

/-- Witness for the amended C8 theorem: the concrete successful store of
Jira issue J-1 over a store holding a group summary containing J-1. -/
theorem store_cascade_only_zendesk_all_tickets_witness :
    ("jira_issue" = "jira_issue" ∨ "jira_issue" = "salesforce_account" →
      [groupIssueRow, jraRow] = [groupIssueRow] ++ [jraRow]) ∧
    ("jira_issue" = "zendesk_ticket" →
      ∀ r ∈ ([groupIssueRow] : Store),
        ((r.summary_type = "all_tickets"
            ∧ ticketIdsContain r.source_ids (pyStrOptInt sdIssueJ1.ticket_zd_ticket_id) = true
            ∧ r.is_valid = true) → { r with is_valid := false } ∈ [groupIssueRow, jraRow]) ∧
        (¬(r.summary_type = "all_tickets"
            ∧ ticketIdsContain r.source_ids (pyStrOptInt sdIssueJ1.ticket_zd_ticket_id) = true
            ∧ r.is_valid = true) → r ∈ [groupIssueRow, jraRow])) :=
  store_cascade_only_zendesk_all_tickets (fun _ => 0) [groupIssueRow] 10 2 "jira_issue" "t"
    sdIssueJ1 {} [groupIssueRow, jraRow] jraRow (by decide)

/-- Helper: `is_summary_valid` with the TTL lookup resolved. -/
theorem is_summary_valid_of_ttl (digest : String → String) (tickets : TicketsDB)
    (store : Store) (rels : Rels) (s : SummaryRow) (now : Time) (ttl : Int)
    (httl : SUMMARY_TYPES_ttl_hours s.summary_type = some ttl) :
    is_summary_valid digest tickets store rels s now =
      if now - s.last_verified_at > ttl * 3600 then
        if calculate_source_data_hash digest tickets (sourceIdIter s.source_ids)
            s.summary_type ≠ s.hash_signature then
          match invalidate_summary store rels s.id with
          | .error ep => .error ep.1
          | .ok st1 => .ok (false, st1, 1)
        else
          .ok (true, update_verification_time store s.id now, 1)
      else
        .ok (true, store, 0) := by
  unfold is_summary_valid
  rw [httl]

/-- The zendesk_tickets table after the sources of the stale summary were
mutated; for a non-'ticket' summary type its content never reaches the hash. -/
def mutatedTickets : TicketsDB := [("1", [("zd_ticket_id", "1"), ("status", "Closed")])]

/-- A 'multi_ticket' summary over tickets 1 and 2, verified at time 0.  Its
stored hash_signature is the digest of the empty list — exactly what
`calculate_source_data_hash` produced at generation time, since data is only
collected for summary_type 'ticket'. -/
def staleMulti : SummaryRow :=
  { id := 5, summary_type := "multi_ticket", source_ids := .idList ["1", "2"],
    hash_signature := "[]" }

/-- C4 counterexample: for a 'multi_ticket' artifact whose source tickets
have been mutated, the first TTL-elapsed check (time 200000 > 48h) recomputes
the source hash, but `calculate_source_data_hash` collects data only for
summary_type 'ticket', so the recomputed hash is the constant digest of the
empty list, identical to the stored signature whatever the sources now hold:
the artifact is NOT marked invalid — the check returns True and merely bumps
last_verified_at. -/
theorem non_ticket_mutation_never_detected :
    calculate_source_data_hash (fun s => s) mutatedTickets ["1", "2"] "multi_ticket"
      = calculate_source_data_hash (fun s => s) [] ["1", "2"] "multi_ticket" ∧
    is_summary_valid (fun s => s) mutatedTickets [staleMulti] [] staleMulti 200000
      = .ok (true, [{ staleMulti with last_verified_at := 200000 }], 1) := by
  refine ⟨rfl, by decide⟩

/-- C4 amended: only for summary_type 'ticket' is the stored hash content
sensitive, and even there the claimed invalidation never lands: a
TTL-elapsed check whose recomputed source hash differs from the stored
hash_signature calls `invalidate_summary`, which raises AttributeError at
`db.transaction()` (`DatabaseService` has no `transaction` method) before
any UPDATE — the exception propagates out of `is_summary_valid`, the row is
never marked `is_valid = false`, and no regeneration path runs. -/
theorem ticket_hash_mismatch_raises
    (digest : String → String) (tickets : TicketsDB) (store : Store) (rels : Rels)
    (s : SummaryRow) (now : Time)
    (hty : s.summary_type = "ticket")
    (helapsed : now - s.last_verified_at > 24 * 3600)
    (hmismatch : calculate_source_data_hash digest tickets (sourceIdIter s.source_ids)
      s.summary_type ≠ s.hash_signature) :
    is_summary_valid digest tickets store rels s now
      = .error transactionAttributeError ∧
    invalidate_summary store rels s.id = .error (transactionAttributeError, store) := by
  constructor
  · rw [is_summary_valid_of_ttl digest tickets store rels s now 24 (by rw [hty]; rfl)]
    rw [if_pos helapsed, if_pos hmismatch]
    rfl
  · rfl

/-- The zendesk_tickets table of the C4 witness. -/
def ticketsOne : TicketsDB := [("1", [("a", "x")])]

/-- A 'ticket' summary over ticket 1 whose stored signature no longer matches
the current source content. -/
def ticketRow7 : SummaryRow :=
  { id := 7, summary_type := "ticket", source_ids := .idList ["1"],
    hash_signature := "old" }

/-- Witness for the amended C4 theorem: the concrete TTL-elapsed mismatch
check on ticket summary 7. -/
theorem ticket_hash_mismatch_raises_witness :
    is_summary_valid (fun s => s) ticketsOne [ticketRow7] [] ticketRow7 100000
      = .error transactionAttributeError ∧
    invalidate_summary [ticketRow7] [] ticketRow7.id
      = .error (transactionAttributeError, [ticketRow7]) :=
  ticket_hash_mismatch_raises (fun s => s) ticketsOne [ticketRow7] [] ticketRow7
    100000 rfl (by decide) (by decide)

/-- A valid 'all_tickets' group summary generated for the request restricted
to include_ticket_ids = ["1"] (its stored query_params record that). -/
def rowInclude1 : SummaryRow :=
  { id := 1, summary_type := "all_tickets", hierarchy_level := "group",
    source_ids := .ticketIds ["1"] none none,
    query_params := .hier false none (some ["1"]) none, last_generated_at := 10 }

/-- C6 counterexample: a request for 'all_tickets' restricted to ticket 2
(include_ticket_ids = ["2"]) is served, as a cache hit, the artifact that was
generated for include_ticket_ids = ["1"]: the lookup compares only
summary_type and the date-range columns, never query_params, so two
logically different requests resolve to the same cache key and are served
each other's artifact. -/
theorem different_params_served_same_artifact :
    hier_get_or_generate_summary (fun _ => 0) (fun _ _ => "") (fun _ => .error "u")
      (fun _ => .error "u") (fun _ => .error "u") (fun _ => .error "u")
      [rowInclude1] 20 2 "all_tickets" { include_ticket_ids := ["2"] } false true true
      = .ok ([rowInclude1], .cached rowInclude1) := by
  decide

/-- C6 amended: the hierarchical cache key is exactly (summary_type,
date_range_start, date_range_end): any two parameter sets agreeing on the two
date bounds — whatever their include/exclude lists, filters or other fields —
produce the same lookup result; no normalization (list sorting, null
canonicalization) of query_params is performed, because query_params never
enters the comparison. -/
theorem hier_lookup_ignores_query_params
    (store : Store) (stype : String) (params params' : Params) (readOk : Bool)
    (hs : params.date_range_start = params'.date_range_start)
    (he : params.date_range_end = params'.date_range_end) :
    hier_get_valid_cached_summary store stype params readOk
      = hier_get_valid_cached_summary store stype params' readOk := by
  unfold hier_get_valid_cached_summary hierLookupRows
  rw [hs, he]

/-- Witness for the amended C6 theorem: requests restricted to ticket 2 and
to ticket 1 get the same lookup result. -/
theorem hier_lookup_ignores_query_params_witness :
    hier_get_valid_cached_summary [rowInclude1] "all_tickets"
        { include_ticket_ids := ["2"] } true
      = hier_get_valid_cached_summary [rowInclude1] "all_tickets"
        { include_ticket_ids := ["1"] } true :=
  hier_lookup_ignores_query_params [rowInclude1] "all_tickets"
    { include_ticket_ids := ["2"] } { include_ticket_ids := ["1"] } true rfl rfl

/-- Helper: `strLe` is total. -/
theorem strLe_total (a b : String) : strLe a b = true ∨ strLe b a = true :=
  charsLe_total a.data b.data

/-- Helper: `strLe` is transitive. -/
theorem strLe_trans {a b c : String} (hab : strLe a b = true) (hbc : strLe b c = true) :
    strLe a c = true :=
  charsLe_trans a.data b.data c.data hab hbc

/-- Helper: `strLe` is antisymmetric. -/
theorem strLe_antisymm {a b : String} (hab : strLe a b = true) (hba : strLe b a = true) :
    a = b :=
  eq_of_data_eq (charsLe_antisymm a.data b.data hab hba)

instance : IsTotal (String × String) keyLe :=
  ⟨fun a b => by
    unfold keyLe
    by_cases h : a.1 = b.1
    · rw [if_pos h, if_pos h.symm]
      exact strLe_total a.2 b.2
    · rw [if_neg h, if_neg (fun hh => h hh.symm)]
      exact strLe_total a.1 b.1⟩

instance : IsTrans (String × String) keyLe :=
  ⟨fun a b c hab hbc => by
    unfold keyLe at hab hbc ⊢
    by_cases h1 : a.1 = b.1 <;> by_cases h2 : b.1 = c.1
    · rw [if_pos h1] at hab
      rw [if_pos h2] at hbc
      rw [if_pos (h1.trans h2)]
      exact strLe_trans hab hbc
    · rw [if_neg h2] at hbc
      have hac : ¬ a.1 = c.1 := fun hh => h2 (h1 ▸ hh)
      rw [if_neg hac, h1]
      exact hbc
    · rw [if_neg h1] at hab
      have hac : ¬ a.1 = c.1 := fun hh => h1 (hh.trans h2.symm)
      rw [if_neg hac, ← h2]
      exact hab
    · rw [if_neg h1] at hab
      rw [if_neg h2] at hbc
      by_cases hac : a.1 = c.1
      · exact absurd (strLe_antisymm hab (hac ▸ hbc)) h1
      · rw [if_neg hac]
        exact strLe_trans hab hbc⟩

instance : IsAntisymm (String × String) keyLe :=
  ⟨fun a b hab hba => by
    unfold keyLe at hab hba
    by_cases h : a.1 = b.1
    · rw [if_pos h] at hab
      rw [if_pos h.symm] at hba
      exact Prod.ext h (strLe_antisymm hab hba)
    · rw [if_neg h] at hab
      rw [if_neg (fun hh => h hh.symm)] at hba
      exact absurd (strLe_antisymm hab hba) h⟩

/-- Helper: the sort_keys ordering of dict entries is invariant under
permutation of the entries, since `keyLe` is a total, transitive,
antisymmetric (lexicographic) order. -/
theorem insertionSort_keyLe_congr (kvs kvs' : Record) (h : kvs.Perm kvs') :
    List.insertionSort keyLe kvs = List.insertionSort keyLe kvs' :=
  List.eq_of_perm_of_sorted
    (((List.perm_insertionSort keyLe kvs).trans h).trans
      (List.perm_insertionSort keyLe kvs').symm)
    (List.sorted_insertionSort keyLe kvs)
    (List.sorted_insertionSort keyLe kvs')

/-- Helper: serializing one dict with sort_keys is invariant under the order
of its entries. -/
theorem dumpsSortedDict_congr (kvs kvs' : Record) (h : kvs.Perm kvs') :
    dumpsSortedDict kvs = dumpsSortedDict kvs' := by
  unfold dumpsSortedDict
  rw [insertionSort_keyLe_congr kvs kvs' h]

/-- Helper: serializing a list of dicts with sort_keys depends only on the
ordered list of dicts, each taken up to entry order. -/
theorem dumpsRecordList_congr (rs rs' : List Record)
    (h : List.Forall₂ (fun a b => a.Perm b) rs rs') :
    dumpsRecordList rs = dumpsRecordList rs' := by
  unfold dumpsRecordList
  have hmap : rs.map dumpsSortedDict = rs'.map dumpsSortedDict := by
    induction h with
    | nil => rfl
    | cons hab _ ih =>
      simp only [List.map_cons, ih, dumpsSortedDict_congr _ _ hab]
  rw [hmap]

/-- A zendesk_tickets table with two tickets, used to exhibit the hash's
dependence on fetch order. -/
def twoTickets : TicketsDB :=
  [("1", [("zd_ticket_id", "1"), ("status", "Open")]),
   ("2", [("zd_ticket_id", "2"), ("status", "Closed")])]

/-- C7 counterexample: resolving the same two source records in the two
possible orders yields the same logical content (the record lists are
permutations of one another) but different serialized payloads — the records
are serialized in source_ids order, `sort_keys=True` only canonicalizes the
keys inside each record — hence different hash values for any digest that
separates them (instantiated here at an injective digest; SHA-256 separates
all practically occurring distinct inputs). -/
theorem hash_depends_on_fetch_order :
    (collectTicketData twoTickets ["1", "2"]).Perm
      (collectTicketData twoTickets ["2", "1"]) ∧
    calculate_source_data_hash (fun s => s) twoTickets ["1", "2"] "ticket"
      ≠ calculate_source_data_hash (fun s => s) twoTickets ["2", "1"] "ticket" := by
  refine ⟨by decide, by decide⟩

/-- C7 amended: the stored hash is a function of the *ordered* list of
resolved records only, canonical in each record's dict-entry order
(`sort_keys=True`): whenever two resolutions produce, position by position,
the same records up to reordering of their (column, value) entries, the
hashes agree for every digest.  It is not invariant under reordering of the
records themselves (the fetch order given by source_ids). -/
theorem hash_function_of_ordered_resolved_records
    (digest : String → String) (t1 t2 : TicketsDB) (ids1 ids2 : List String)
    (h : List.Forall₂ (fun a b => a.Perm b)
      (collectTicketData t1 ids1) (collectTicketData t2 ids2)) :
    calculate_source_data_hash digest t1 ids1 "ticket"
      = calculate_source_data_hash digest t2 ids2 "ticket" := by
  unfold calculate_source_data_hash
  show digest (dumpsRecordList (collectTicketData t1 ids1))
    = digest (dumpsRecordList (collectTicketData t2 ids2))
  rw [dumpsRecordList_congr _ _ h]

/-- Witness for the amended C7 theorem: the same row resolved with its
columns listed in the two possible orders hashes identically. -/
theorem hash_function_of_ordered_resolved_records_witness :
    calculate_source_data_hash (fun s => s) [("1", [("a", "1"), ("b", "2")])]
        ["1"] "ticket"
      = calculate_source_data_hash (fun s => s) [("1", [("b", "2"), ("a", "1")])]
        ["1"] "ticket" :=
  hash_function_of_ordered_resolved_records (fun s => s)
    [("1", [("a", "1"), ("b", "2")])] [("1", [("b", "2"), ("a", "1")])] ["1"] ["1"]
    (List.Forall₂.cons (List.Perm.swap ("b", "2") ("a", "1") []) List.Forall₂.nil)

/-- Parameters of the repeated group request of the C1 counterexample: no
dates, no include/exclude lists. -/
def dupParams : Params := {}

/-- Resolved source data of the repeated 'all_tickets' generation. -/
def dupSd : SourceData := { tickets_zd_ticket_ids := [1] }

/-- The store after the first 'all_tickets' store. -/
def dupStore1 : Store :=
  ((hier_store_summary (fun _ => 0) [] 10 1 "all_tickets" "t1" dupSd dupParams
    true).toOption.map (fun p => p.1)).getD []

/-- The store after a second store for the very same normalized key. -/
def dupStore2 : Store :=
  ((hier_store_summary (fun _ => 0) dupStore1 20 2 "all_tickets" "t2" dupSd dupParams
    true).toOption.map (fun p => p.1)).getD []

/-- C1 counterexample: `HierarchicalSummaryService._store_summary` is a plain
INSERT with no ON CONFLICT clause, so storing twice for the same normalized
key (summary_type 'all_tickets', same query_params, NULL date range) does not
replace the prior row: the store ends up with two rows, both `is_valid =
true`, carrying the identical key. -/
theorem hier_store_leaves_two_valid_rows_for_one_key :
    dupStore2.length = 2 ∧
    dupStore2.all (fun r => r.is_valid) = true ∧
    dupStore2.map rowKey
      = [("all_tickets", .hier false none none none, none, none),
         ("all_tickets", .hier false none none none, none, none)] := by
  refine ⟨by decide, by decide, by decide⟩

/-- C1 amended: neither store implements the claimed at-most-one-valid-row
upsert.  `HierarchicalSummaryService._store_summary` is a plain INSERT with
no ON CONFLICT clause, so a second store for the same normalized key leaves
two rows, both `is_valid = true`, carrying the identical key; and
`SummaryService.store_summary` — the only place the ON CONFLICT upsert SQL
exists — never executes it: its first statement `async with
db.transaction():` raises AttributeError (`DatabaseService` defines no
`transaction` method), so every call fails with the summaries and
relationships tables unchanged and no row returned. -/
theorem svc_store_raises_hier_store_duplicates :
    (∀ (store : Store) (rels : Rels) (now : Time) (freshId : Nat)
      (stype text srcty : String) (sids : List String) (ssids : Option (List Nat))
      (qp : Params) (hash meta : String),
      store_summary store rels now freshId stype text srcty sids ssids qp hash meta
        = .error (transactionAttributeError, store, rels)) ∧
    dupStore2.all (fun r => r.is_valid) = true ∧
    dupStore2.map rowKey
      = [("all_tickets", .hier false none none none, none, none),
         ("all_tickets", .hier false none none none, none, none)] := by
  refine ⟨fun store rels now freshId stype text srcty sids ssids qp hash meta => rfl,
    by decide, by decide⟩

end StriimCS
